import Mathlib

/-!
Shallow embedding of the `oracle_vectorsearch_example` model-management
scripts (`models/load_models.py`, `models/drop_models.py`,
`models/download_models.py`) and proofs about their reconciliation
behaviour.

Database effects (the Oracle registry of loaded ONNX models) are modelled
as explicit state: the registry is the list of currently registered model
names, and every registry RPC and every user-visible skip message is
recorded in an action trace.  Backend failures of the two registry RPCs
(`DBMS_VECTOR.DROP_ONNX_MODEL`, `DBMS_VECTOR.LOAD_ONNX_MODEL`) are
injected through boolean oracles; a `True` answer means the corresponding
`cursor.execute` raises `oracledb.Error`.  In the Python scripts such an
exception is never caught inside the batch loop, so it propagates out of
`main`'s `try ... finally` block: this is modelled by `Except.error`
carrying the state at the moment the exception was raised.
-/

namespace OracleVec

/-- One entry of `models.json` (keys `id`, `name`, `url`, `output`,
`db_model_name`, `description`), as consumed by all three scripts. -/
structure ModelDescriptor where
  id : String
  name : String
  url : String
  output : String
  db_model_name : String
  description : String
deriving DecidableEq, Repr

/-- The parsed `models.json` document: a top-level key `models` holding an
ordered list of descriptors. -/
structure Config where
  models : List ModelDescriptor
deriving DecidableEq, Repr

/-- Observable actions of a run: the two registry RPCs, the two skip
messages printed by `load_models.py` (`[SKIP] 이미 로드됨` and
`[SKIP] ... 파일 없음`, the latter together with the advice to run
`download_models.py` first), and a fetch action.  No code path of
`load_models.py` or `drop_models.py` ever produces `fetch`; the
constructor exists so that "the load operation performs no network
fetch" is expressible about traces. -/
inductive Action where
  | deregister (name : String)
  | register (fileName name : String)
  | skipAlready (modelId : String)
  | skipMissing (modelId : String)
  | fetch (url : String)
deriving DecidableEq, Repr

/-- Mutable state of a `load_models.py` run: the registry contents, the
trace of emitted actions, and the two counters accumulated by `main`. -/
structure ExecState where
  registry : List String
  trace : List Action
  loadedCount : Nat
  skippedCount : Nat
deriving DecidableEq, Repr

/-- Mutable state of a `drop_models.py` run. -/
structure DropState where
  registry : List String
  trace : List Action
  droppedCount : Nat
deriving DecidableEq, Repr

/-- Manifest loading (`load_config` in all three scripts): a bare
`json.load` of `models.json`.  It raises only when the file is missing or
the JSON malformed (modelled by `none`); the parsed document is returned
as-is, with no validation of field presence or of id / registry-name
uniqueness. -/
inductive ConfigError where
  | missingOrMalformed
deriving DecidableEq, Repr

/-- Embedding of `load_config` from `load_models.py` lines 48-52 and
`drop_models.py` lines 77-81 (also `download_models.py` lines 11-15):
`json.load(open(models.json))` with no further checks. -/
def load_config (raw : Option Config) : Except ConfigError Config :=
  match raw with
  | none => Except.error ConfigError.missingOrMalformed
  | some c => Except.ok c

/-- Embedding of `drop_model` (`load_models.py` lines 62-69): issues
`DBMS_VECTOR.DROP_ONNX_MODEL(name, force => TRUE)` and removes the name
from the registry.  Failure injection is handled by the caller. -/
def drop_model (name : String) (st : ExecState) : ExecState :=
  { st with
    registry := st.registry.filter (fun r => r ≠ name)
    trace := st.trace ++ [Action.deregister name] }

/-- Embedding of `load_model` (`load_models.py` lines 72-102).  Checks
whether the expected ONNX file is present in the models directory
(`files` is the snapshot of present local filenames); if absent it prints
the skip-and-fetch-first advice and returns `false`.  Otherwise it issues
`DBMS_VECTOR.LOAD_ONNX_MODEL`; `lf name = true` means that call raises,
which propagates (`Except.error`).  On success it returns `true`. -/
def load_model (lf : String → Bool) (files : List String) (m : ModelDescriptor)
    (st : ExecState) : Except ExecState (ExecState × Bool) :=
  if m.output ∈ files then
    if lf m.db_model_name then Except.error st
    else Except.ok
      ({ st with
          registry := st.registry ++ [m.db_model_name]
          trace := st.trace ++ [Action.register m.output m.db_model_name] }, true)
  else
    Except.ok ({ st with trace := st.trace ++ [Action.skipMissing m.id] }, false)

/-- The counting wrapper around `load_model` in `main`'s loop
(`load_models.py` lines 171-174): `loaded_count += 1` on `True`,
`skipped_count += 1` on `False`. -/
def loadAndCount (lf : String → Bool) (files : List String) (m : ModelDescriptor)
    (st : ExecState) : Except ExecState ExecState :=
  match load_model lf files m st with
  | Except.error s => Except.error s
  | Except.ok (s, true) => Except.ok { s with loadedCount := s.loadedCount + 1 }
  | Except.ok (s, false) => Except.ok { s with skippedCount := s.skippedCount + 1 }

/-- One iteration of `main`'s loop in `load_models.py` (lines 157-174) for
a single descriptor.  `snap` is the `loaded_models` snapshot taken once
before the loop and never updated; `df name = true` means the
`DROP_ONNX_MODEL` call for `name` raises. -/
def processModel (df lf : String → Bool) (files snap : List String) (force : Bool)
    (m : ModelDescriptor) (st : ExecState) : Except ExecState ExecState :=
  if m.db_model_name ∈ snap then
    if force then
      if df m.db_model_name then Except.error st
      else loadAndCount lf files m (drop_model m.db_model_name st)
    else
      Except.ok
        { st with
          trace := st.trace ++ [Action.skipAlready m.id]
          skippedCount := st.skippedCount + 1 }
  else loadAndCount lf files m st

/-- The whole loop of `load_models.py` `main` (lines 157-174): descriptors
are processed strictly in order; an uncaught `oracledb.Error` aborts the
loop (and the process) immediately. -/
def runBatch (df lf : String → Bool) (files snap : List String) (force : Bool) :
    List ModelDescriptor → ExecState → Except ExecState ExecState
  | [], st => Except.ok st
  | m :: ms, st =>
    match processModel df lf files snap force m st with
    | Except.error s => Except.error s
    | Except.ok s => runBatch df lf files snap force ms s

/-- Outcome of a `load_models.py` invocation (`--list` runs excluded):
`notFound` is the `sys.exit(1)` on an unknown explicit target id, printed
together with the list of valid ids; `aborted` is an uncaught
`oracledb.Error` escaping the batch loop (no summary line is printed);
`done` is normal completion with the `완료: N개 로딩, M개 스킵` summary. -/
inductive LoadOutcome where
  | notFound (validIds : List String) (st : ExecState)
  | aborted (st : ExecState)
  | done (st : ExecState)
deriving DecidableEq, Repr

/-- Initial execution state: the registry as observed by
`get_loaded_models`, an empty trace, zero counters. -/
def initState (registry : List String) : ExecState :=
  { registry := registry, trace := [], loadedCount := 0, skippedCount := 0 }

/-- Embedding of `load_models.py` `main` (lines 116-179), minus the
`--list` branch.  `registry` is the database state at invocation; the
snapshot `loaded_models` equals it.  `targetId` is the optional positional
`model_id` argument. -/
def loadMain (df lf : String → Bool) (files registry : List String) (force : Bool)
    (targetId : Option String) (config : Config) : LoadOutcome :=
  let models_to_load :=
    match targetId with
    | some tid => config.models.filter (fun m => m.id == tid)
    | none => config.models
  if targetId.isSome ∧ models_to_load = [] then
    LoadOutcome.notFound (config.models.map (fun m => m.id)) (initState registry)
  else
    match runBatch df lf files registry force models_to_load (initState registry) with
    | Except.error s => LoadOutcome.aborted s
    | Except.ok s => LoadOutcome.done s

/-- The execution state carried by any `load_models.py` outcome. -/
def LoadOutcome.state : LoadOutcome → ExecState
  | LoadOutcome.notFound _ s => s
  | LoadOutcome.aborted s => s
  | LoadOutcome.done s => s

/-- Embedding of `get_model_by_db_name` (`drop_models.py` lines 84-89):
first manifest entry whose `db_model_name` matches, if any. -/
def get_model_by_db_name (config : Config) (dbName : String) : Option ModelDescriptor :=
  config.models.find? (fun m => m.db_model_name == dbName)

/-- Embedding of `get_model_by_id` (`drop_models.py` lines 92-97). -/
def get_model_by_id (config : Config) (modelId : String) : Option ModelDescriptor :=
  config.models.find? (fun m => m.id == modelId)

/-- Target resolution for explicit ids (`drop_models.py` lines 202-217):
each requested id is looked up; an unknown id exits fatally with the list
of valid ids; a known id whose registry name is not currently loaded is
warned about and dropped from the plan; otherwise
`(db_name, model_id)` is appended.  No deduplication is performed. -/
def resolveExplicit (config : Config) (loaded : List String) :
    List String → Except (List String) (List (String × Option String))
  | [] => Except.ok []
  | modelId :: rest =>
    match get_model_by_id config modelId with
    | none => Except.error (config.models.map (fun m => m.id))
    | some m =>
      if m.db_model_name ∈ loaded then
        match resolveExplicit config loaded rest with
        | Except.error e => Except.error e
        | Except.ok tail => Except.ok ((m.db_model_name, some modelId) :: tail)
      else resolveExplicit config loaded rest

/-- Target resolution for `--all` (`drop_models.py` lines 195-200): every
currently loaded name, paired with the matching manifest id when one
exists and `none` for orphans. -/
def resolveAll (config : Config) (loaded : List String) : List (String × Option String) :=
  loaded.map (fun n => (n, (get_model_by_db_name config n).map (fun m => m.id)))

/-- The drop-execution loop (`drop_models.py` lines 233-241): one
`DBMS_VECTOR.DROP_ONNX_MODEL(name, force => TRUE)` per planned entry, in
plan order, incrementing `dropped_count` each time. -/
def execDrops : List (String × Option String) → DropState → DropState
  | [], st => st
  | p :: rest, st =>
    execDrops rest
      { registry := st.registry.filter (fun r => r ≠ p.1)
        trace := st.trace ++ [Action.deregister p.1]
        droppedCount := st.droppedCount + 1 }

/-- Outcome of a `drop_models.py` invocation: `usage` is either of the two
argument-validation exits (lines 167-173); `listed` is the `--list`
branch; `notFound` is the fatal unknown-id exit with the valid ids;
`noTargets` is the "nothing to drop" early return; `cancelled` is a
declined confirmation; `done` carries the final state and summary. -/
inductive DropOutcome where
  | usage
  | listed (st : DropState)
  | notFound (validIds : List String) (st : DropState)
  | noTargets (st : DropState)
  | cancelled (st : DropState)
  | done (st : DropState)
deriving DecidableEq, Repr

/-- Embedding of `drop_models.py` `main` (lines 154-246).  `registry` is
the database state at invocation (= the `loaded_models` snapshot);
`answer` is the user's reply to the confirmation prompt, consulted only
when `yes` is false. -/
def dropMain (config : Config) (registry : List String) (allFlag listFlag : Bool)
    (ids : List String) (yes answer : Bool) : DropOutcome :=
  if listFlag = false ∧ allFlag = false ∧ ids = [] then DropOutcome.usage
  else if allFlag = true ∧ ids ≠ [] then DropOutcome.usage
  else
    let st0 : DropState := { registry := registry, trace := [], droppedCount := 0 }
    if listFlag then DropOutcome.listed st0
    else
      match
        (if allFlag then Except.ok (resolveAll config registry)
         else resolveExplicit config registry ids) with
      | Except.error validIds => DropOutcome.notFound validIds st0
      | Except.ok plan =>
        if plan = [] then DropOutcome.noTargets st0
        else if yes = false ∧ answer = false then DropOutcome.cancelled st0
        else DropOutcome.done (execDrops plan st0)

/-- Local filesystem model for `download_models.py`: the files present in
the models directory, each flagged complete (`true`) or partial
(`false`).  `urllib.request.urlretrieve` and `zipfile.extract` both write
directly to their destination path, so an interrupted transfer leaves a
partial file at that path. -/
structure FS where
  files : List (String × Bool)
deriving DecidableEq, Repr

/-- `Path.exists()`: a file at the path, complete or partial, counts. -/
def FS.existsPath (fs : FS) (p : String) : Bool :=
  fs.files.any (fun e => e.1 == p)

/-- A write to path `p` (complete when the transfer finished). -/
def FS.put (fs : FS) (p : String) (complete : Bool) : FS :=
  ⟨fs.files ++ [(p, complete)]⟩

/-- `Path.unlink()`. -/
def FS.removePath (fs : FS) (p : String) : FS :=
  ⟨fs.files.filter (fun e => e.1 ≠ p)⟩

/-- Python's `str.endswith`, computed on the character lists so that it
evaluates by kernel reduction. -/
def strEndsWith (s suffix : String) : Bool :=
  suffix.data.isSuffixOf s.data

/-- The extraction loop of `download_model` (`download_models.py` lines
36-40): each archive entry ending in `.onnx` is extracted straight into
the output directory; `extractOk e = false` models a disk-write failure
midway through entry `e`, leaving a partial file at `e`'s path and
raising. -/
def extractEntries (extractOk : String → Bool) :
    List String → FS → Except FS FS
  | [], fs => Except.ok fs
  | e :: rest, fs =>
    if strEndsWith e ".onnx" then
      if extractOk e then extractEntries extractOk rest (fs.put e true)
      else Except.error (fs.put e false)
    else extractEntries extractOk rest fs

/-- The temporary archive path `{id}_temp.zip` of `download_models.py`
line 30. -/
def tempZipPath (m : ModelDescriptor) : String := m.id ++ "_temp.zip"

/-- Embedding of `download_model` (`download_models.py` lines 18-49).
`downloadOk = false` models a network failure during `urlretrieve`,
leaving a partial file at the retrieval destination and raising.
The zip branch retrieves to `tempZipPath`, extracts matching entries, and
unlinks the zip only after the loop completes; the direct branch
retrieves straight to the final output path. -/
def download_model (downloadOk : Bool) (extractOk : String → Bool)
    (zipEntries : List String) (m : ModelDescriptor) (fs : FS) : Except FS FS :=
  if fs.existsPath m.output then Except.ok fs
  else if strEndsWith m.url ".zip" then
    if downloadOk = false then Except.error (fs.put (tempZipPath m) false)
    else
      match extractEntries extractOk zipEntries (fs.put (tempZipPath m) true) with
      | Except.error fs2 => Except.error fs2
      | Except.ok fs2 => Except.ok (fs2.removePath (tempZipPath m))
  else
    if downloadOk = false then Except.error (fs.put m.output false)
    else Except.ok (fs.put m.output true)

/-- Concrete manifest entries used to instantiate the theorems below. -/
def mdlA : ModelDescriptor :=
  ⟨"a", "Model A", "http://x/a.onnx", "a.onnx", "N1", "model a"⟩

/-- Second concrete manifest entry. -/
def mdlB : ModelDescriptor :=
  ⟨"b", "Model B", "http://x/b.onnx", "b.onnx", "N2", "model b"⟩

/-- Third concrete manifest entry. -/
def mdlC : ModelDescriptor :=
  ⟨"c", "Model C", "http://x/c.onnx", "c.onnx", "N3", "model c"⟩

/-- A concrete manifest entry whose source is a zip archive. -/
def mdlZip : ModelDescriptor :=
  ⟨"z", "Model Z", "http://x/z.zip", "z.onnx", "NZ", "model z"⟩

/-- A concrete manifest document with a duplicate id and a duplicate
registry name. -/
def cfgDup : Config := ⟨[mdlA, mdlA]⟩

/-! Helper lemmas shared by the claim theorems. -/

lemma get_model_by_id_eq_none (config : Config) (tid : String)
    (h : tid ∉ config.models.map (fun m => m.id)) :
    get_model_by_id config tid = none := by
  rw [get_model_by_id, List.find?_eq_none]
  intro m hm
  simp only [beq_iff_eq]
  intro he
  exact h (List.mem_map.mpr ⟨m, hm, he⟩)

lemma resolveExplicit_unknown (config : Config) (loaded : List String)
    (tid : String) (h : tid ∉ config.models.map (fun m => m.id)) :
    ∀ ids : List String, tid ∈ ids →
      resolveExplicit config loaded ids =
        Except.error (config.models.map (fun m => m.id)) := by
  intro ids
  induction ids with
  | nil => intro hx; cases hx
  | cons i rest ih =>
    intro hx
    by_cases hi : i = tid
    · subst hi
      simp [resolveExplicit, get_model_by_id_eq_none config i h]
    · have htid : tid ∈ rest := by
        rcases List.mem_cons.mp hx with h1 | h1
        · exact absurd h1.symm hi
        · exact h1
      rw [resolveExplicit]
      cases hg : get_model_by_id config i with
      | none => rfl
      | some m =>
        by_cases hmem : m.db_model_name ∈ loaded
        · simp only [if_pos hmem, ih htid]
        · simp only [if_neg hmem, ih htid]

lemma runBatch_ok_then_error (df lf : String → Bool) (files snap : List String)
    (force : Bool) (m : ModelDescriptor) (ms2 : List ModelDescriptor)
    (st2 : ExecState) :
    ∀ (ms1 : List ModelDescriptor) (st st1 : ExecState),
      runBatch df lf files snap force ms1 st = Except.ok st1 →
      processModel df lf files snap force m st1 = Except.error st2 →
      runBatch df lf files snap force (ms1 ++ m :: ms2) st = Except.error st2 := by
  intro ms1
  induction ms1 with
  | nil =>
    intro st st1 h1 h2
    rw [runBatch] at h1
    cases h1
    simp [runBatch, h2]
  | cons m0 rest ih =>
    intro st st1 h1 h2
    rw [runBatch] at h1
    rw [List.cons_append, runBatch]
    cases hp : processModel df lf files snap force m0 st with
    | error s => rw [hp] at h1; cases h1
    | ok s =>
      rw [hp] at h1
      simp only []
      exact ih s st1 h1 h2

lemma loadAndCount_cases (lf : String → Bool) (files : List String)
    (m : ModelDescriptor) (st s : ExecState) (a : Action)
    (h : loadAndCount lf files m st = Except.ok s ∨
         loadAndCount lf files m st = Except.error s)
    (ha : a ∈ s.trace) :
    a ∈ st.trace ∨ a = Action.register m.output m.db_model_name ∨
      a = Action.skipMissing m.id := by
  by_cases hf : m.output ∈ files
  · by_cases hl : lf m.db_model_name = true
    · simp only [loadAndCount, load_model, if_pos hf, hl, if_true] at h
      rcases h with h | h
      · cases h
      · cases h
        exact Or.inl ha
    · simp only [loadAndCount, load_model, if_pos hf, hl, if_false] at h
      rcases h with h | h
      · cases h
        simp only [List.mem_append, List.mem_singleton] at ha
        tauto
      · cases h
  · simp only [loadAndCount, load_model, if_neg hf] at h
    rcases h with h | h
    · cases h
      simp only [List.mem_append, List.mem_singleton] at ha
      tauto
    · cases h

lemma processModel_mem_trace (df lf : String → Bool) (files snap : List String)
    (force : Bool) (m : ModelDescriptor) (st s : ExecState) (a : Action)
    (h : processModel df lf files snap force m st = Except.ok s ∨
         processModel df lf files snap force m st = Except.error s)
    (ha : a ∈ s.trace) :
    a ∈ st.trace ∨ a = Action.deregister m.db_model_name ∨
      a = Action.register m.output m.db_model_name ∨
      a = Action.skipAlready m.id ∨ a = Action.skipMissing m.id := by
  by_cases hs : m.db_model_name ∈ snap
  · by_cases hforce : force = true
    · by_cases hd : df m.db_model_name = true
      · simp only [processModel, if_pos hs, hforce, if_true, hd] at h
        rcases h with h | h
        · cases h
        · cases h
          exact Or.inl ha
      · simp only [processModel, if_pos hs, hforce, if_true, hd, if_false] at h
        rcases loadAndCount_cases lf files m (drop_model m.db_model_name st) s a h ha
          with h1 | h1 | h1
        · simp only [drop_model, List.mem_append, List.mem_singleton] at h1
          tauto
        · tauto
        · tauto
    · simp only [processModel, if_pos hs, hforce, if_false] at h
      rcases h with h | h
      · cases h
        simp only [List.mem_append, List.mem_singleton] at ha
        tauto
      · cases h
  · simp only [processModel, if_neg hs] at h
    rcases loadAndCount_cases lf files m st s a h ha with h1 | h1 | h1 <;> tauto

lemma processModel_no_fetch (df lf : String → Bool) (files snap : List String)
    (force : Bool) (m : ModelDescriptor) (st s : ExecState) (u : String)
    (h : processModel df lf files snap force m st = Except.ok s ∨
         processModel df lf files snap force m st = Except.error s)
    (ha : Action.fetch u ∈ s.trace) : Action.fetch u ∈ st.trace := by
  rcases processModel_mem_trace df lf files snap force m st s (Action.fetch u) h ha
    with h1 | h1 | h1 | h1 | h1
  · exact h1
  · cases h1
  · cases h1
  · cases h1
  · cases h1

lemma runBatch_no_fetch (df lf : String → Bool) (files snap : List String)
    (force : Bool) :
    ∀ (ms : List ModelDescriptor) (st s : ExecState) (u : String),
      (runBatch df lf files snap force ms st = Except.ok s ∨
       runBatch df lf files snap force ms st = Except.error s) →
      Action.fetch u ∈ s.trace → Action.fetch u ∈ st.trace := by
  intro ms
  induction ms with
  | nil =>
    intro st s u h ha
    rcases h with h | h
    · rw [runBatch] at h
      cases h
      exact ha
    · rw [runBatch] at h
      cases h
  | cons m rest ih =>
    intro st s u h ha
    cases hp : processModel df lf files snap force m st with
    | error s1 =>
      have hs1 : s1 = s := by
        rcases h with h | h <;> rw [runBatch, hp] at h
        · cases h
        · injection h
      subst hs1
      exact processModel_no_fetch df lf files snap force m st _ u (Or.inr hp) ha
    | ok s1 =>
      rcases h with h | h <;> rw [runBatch, hp] at h
      · exact processModel_no_fetch df lf files snap force m st s1 u (Or.inl hp)
          (ih s1 s u (Or.inl h) ha)
      · exact processModel_no_fetch df lf files snap force m st s1 u (Or.inl hp)
          (ih s1 s u (Or.inr h) ha)

lemma loadMain_no_fetch (df lf : String → Bool) (files registry : List String)
    (force : Bool) (targetId : Option String) (config : Config) (u : String) :
    Action.fetch u ∉ (loadMain df lf files registry force targetId config).state.trace := by
  intro hmem
  simp only [loadMain] at hmem
  split at hmem
  · simp only [LoadOutcome.state, initState] at hmem
    cases hmem
  · split at hmem <;>
      simp only [LoadOutcome.state] at hmem <;>
      rename_i hrun
    · have := runBatch_no_fetch df lf files registry force _ _ _ u (Or.inr hrun) hmem
      simp [initState] at this
    · have := runBatch_no_fetch df lf files registry force _ _ _ u (Or.inl hrun) hmem
      simp [initState] at this

lemma execDrops_droppedCount :
    ∀ (l : List (String × Option String)) (st : DropState),
      (execDrops l st).droppedCount = st.droppedCount + l.length := by
  intro l
  induction l with
  | nil => intro st; rw [execDrops]; rfl
  | cons p rest ih =>
    intro st
    rw [execDrops, ih]
    simp only [List.length_cons]
    omega

lemma execDrops_trace :
    ∀ (l : List (String × Option String)) (st : DropState),
      (execDrops l st).trace =
        st.trace ++ l.map (fun p => Action.deregister p.1) := by
  intro l
  induction l with
  | nil => intro st; rw [execDrops]; simp
  | cons p rest ih =>
    intro st
    rw [execDrops, ih]
    simp

lemma resolveExplicit_cons_known (config : Config) (loaded : List String)
    (i : String) (rest : List String) (m : ModelDescriptor)
    (h1 : get_model_by_id config i = some m) (h2 : m.db_model_name ∈ loaded) :
    resolveExplicit config loaded (i :: rest) =
      match resolveExplicit config loaded rest with
      | Except.error e => Except.error e
      | Except.ok tail => Except.ok ((m.db_model_name, some i) :: tail) := by
  rw [resolveExplicit, h1]
  simp only [if_pos h2]

lemma resolveExplicit_replicate (config : Config) (loaded : List String)
    (i : String) (m : ModelDescriptor) (h1 : get_model_by_id config i = some m)
    (h2 : m.db_model_name ∈ loaded) :
    ∀ k : Nat, resolveExplicit config loaded (List.replicate (k + 1) i) =
      Except.ok (List.replicate (k + 1) (m.db_model_name, some i)) := by
  intro k
  induction k with
  | zero =>
    rw [List.replicate_one, resolveExplicit_cons_known config loaded i [] m h1 h2]
    rfl
  | succ n ih =>
    rw [List.replicate_succ,
      resolveExplicit_cons_known config loaded i (List.replicate (n + 1) i) m h1 h2, ih]
    rfl

lemma FS.existsPath_put (fs : FS) (p q : String) (b : Bool) :
    (fs.put q b).existsPath p = (fs.existsPath p || q == p) := by
  simp [FS.put, FS.existsPath]

lemma FS.existsPath_removePath_self (fs : FS) (p : String) :
    (fs.removePath p).existsPath p = false := by
  simp only [FS.removePath, FS.existsPath]
  rw [Bool.eq_false_iff]
  intro hx
  rw [List.any_eq_true] at hx
  rcases hx with ⟨e, he, hep⟩
  rcases List.mem_filter.mp he with ⟨_, hne⟩
  rw [beq_iff_eq] at hep
  simp [hep] at hne

lemma extractEntries_mono (extractOk : String → Bool) :
    ∀ (entries : List String) (fs fs2 : FS) (p : String),
      (extractEntries extractOk entries fs = Except.ok fs2 ∨
       extractEntries extractOk entries fs = Except.error fs2) →
      fs.existsPath p = true → fs2.existsPath p = true := by
  intro entries
  induction entries with
  | nil =>
    intro fs fs2 p h hp
    rcases h with h | h <;> rw [extractEntries] at h <;> cases h
    exact hp
  | cons e rest ih =>
    intro fs fs2 p h hp
    by_cases he : strEndsWith e ".onnx" = true
    · by_cases hx : extractOk e = true
      · simp only [extractEntries, he, if_true, hx] at h
        exact ih (fs.put e true) fs2 p h (by rw [FS.existsPath_put, hp]; rfl)
      · simp only [extractEntries, he, if_true, hx, if_false] at h
        rcases h with h | h <;> cases h
        rw [FS.existsPath_put, hp]
        rfl
    · simp only [extractEntries, he, if_false] at h
      exact ih fs fs2 p h hp

lemma count_filter_ne_append_self (l : List String) (n : String) :
    ((l.filter (fun r => r ≠ n)) ++ [n]).count n = 1 := by
  rw [List.count_append]
  have h0 : (l.filter (fun r => r ≠ n)).count n = 0 := by
    rw [List.count_eq_zero]
    intro hmem
    have := (List.mem_filter.mp hmem).2
    simp at this
  rw [h0]
  simp

/-! Claim theorems. -/

/-- C3: the register operation without force mode is idempotent: a target
whose registry_name is already in the snapshot is skipped with reason
"already registered", no registry mutation is performed for it, and a
second consecutive run (whose snapshot is the registry left by the first)
skips again, creating no duplicate registry entry. -/
theorem register_skip_idempotent (df lf : String → Bool) (files snap : List String)
    (m : ModelDescriptor) (h : m.db_model_name ∈ snap) :
    loadMain df lf files snap false none ⟨[m]⟩ =
      LoadOutcome.done ⟨snap, [Action.skipAlready m.id], 0, 1⟩ ∧
    (loadMain df lf files snap false none ⟨[m]⟩).state.registry = snap ∧
    loadMain df lf files
        ((loadMain df lf files snap false none ⟨[m]⟩).state.registry) false none ⟨[m]⟩ =
      LoadOutcome.done ⟨snap, [Action.skipAlready m.id], 0, 1⟩ := by
  have h1 : loadMain df lf files snap false none ⟨[m]⟩ =
      LoadOutcome.done ⟨snap, [Action.skipAlready m.id], 0, 1⟩ := by
    simp [loadMain, runBatch, processModel, initState, h]
  refine ⟨h1, ?_, ?_⟩
  · rw [h1]
    rfl
  · rw [h1]
    exact h1

/-- Witness for C3 at a concrete already-registered target. -/
theorem register_skip_idempotent_w :
    mdlA.db_model_name ∈ ["N1"] ∧
    loadMain (fun _ => false) (fun _ => false) [] ["N1"] false none ⟨[mdlA]⟩ =
      LoadOutcome.done ⟨["N1"], [Action.skipAlready "a"], 0, 1⟩ :=
  ⟨by decide,
   (register_skip_idempotent (fun _ => false) (fun _ => false) [] ["N1"] mdlA
      (by decide)).1⟩

/-- C10: in the register operation with force mode, an already-registered
target is deregistered before the local artifact file is checked; with
the artifact absent, the run deregisters and then skips, so the registry
ends without that name. -/
theorem force_drop_precedes_file_check (df lf : String → Bool) (files snap : List String)
    (m : ModelDescriptor) (hreg : m.db_model_name ∈ snap) (hfile : m.output ∉ files)
    (hdf : df m.db_model_name = false) :
    loadMain df lf files snap true none ⟨[m]⟩ =
      LoadOutcome.done ⟨snap.filter (fun r => r ≠ m.db_model_name),
        [Action.deregister m.db_model_name, Action.skipMissing m.id], 0, 1⟩ ∧
    m.db_model_name ∉ snap.filter (fun r => r ≠ m.db_model_name) := by
  constructor
  · simp [loadMain, runBatch, processModel, loadAndCount, load_model, drop_model,
      initState, hreg, hfile, hdf]
  · intro hmem
    have := (List.mem_filter.mp hmem).2
    simp at this

/-- Witness for C10 at a concrete registered target with no local file. -/
theorem force_drop_precedes_file_check_w :
    mdlA.db_model_name ∈ ["N1"] ∧ mdlA.output ∉ ([] : List String) ∧
    loadMain (fun _ => false) (fun _ => false) [] ["N1"] true none ⟨[mdlA]⟩ =
      LoadOutcome.done ⟨["N1"].filter (fun r => r ≠ mdlA.db_model_name),
        [Action.deregister "N1", Action.skipMissing "a"], 0, 1⟩ :=
  ⟨by decide, by decide,
   (force_drop_precedes_file_check (fun _ => false) (fun _ => false) [] ["N1"] mdlA
      (by decide) (by decide) rfl).1⟩

/-- C2 (amended): for a target already in the registry snapshot whose
local artifact file is present, force mode emits exactly one deregister
followed by exactly one register, in that order (the registry calls
succeed), and the resulting registry contains the name exactly once. -/
theorem force_replace_dereg_then_reg (df lf : String → Bool) (files snap : List String)
    (m : ModelDescriptor) (hreg : m.db_model_name ∈ snap) (hfile : m.output ∈ files)
    (hdf : df m.db_model_name = false) (hlf : lf m.db_model_name = false) :
    loadMain df lf files snap true none ⟨[m]⟩ =
      LoadOutcome.done ⟨snap.filter (fun r => r ≠ m.db_model_name) ++ [m.db_model_name],
        [Action.deregister m.db_model_name, Action.register m.output m.db_model_name],
        1, 0⟩ ∧
    (snap.filter (fun r => r ≠ m.db_model_name) ++ [m.db_model_name]).count
      m.db_model_name = 1 := by
  constructor
  · simp [loadMain, runBatch, processModel, loadAndCount, load_model, drop_model,
      initState, hreg, hfile, hdf, hlf]
  · exact count_filter_ne_append_self snap m.db_model_name

/-- Witness for C2 at a concrete registered target with the file present. -/
theorem force_replace_dereg_then_reg_w :
    mdlA.db_model_name ∈ ["N1"] ∧ mdlA.output ∈ ["a.onnx"] ∧
    loadMain (fun _ => false) (fun _ => false) ["a.onnx"] ["N1"] true none ⟨[mdlA]⟩ =
      LoadOutcome.done ⟨["N1"].filter (fun r => r ≠ mdlA.db_model_name) ++ ["N1"],
        [Action.deregister "N1", Action.register "a.onnx" "N1"], 1, 0⟩ := by
  refine ⟨by decide, by decide, ?_⟩
  exact (force_replace_dereg_then_reg (fun _ => false) (fun _ => false) ["a.onnx"]
    ["N1"] mdlA (by decide) (by decide) rfl rfl).1

/-- C2 counterexample: with the target registered but the artifact file
absent, force mode deregisters and then skips: no register action is
emitted and the final registry does not contain the name, so the claim
as stated over every registered target is false. -/
theorem force_replace_missing_artifact_cx :
    loadMain (fun _ => false) (fun _ => false) [] ["N1"] true none ⟨[mdlA]⟩ =
      LoadOutcome.done ⟨[], [Action.deregister "N1", Action.skipMissing "a"], 0, 1⟩ ∧
    (loadMain (fun _ => false) (fun _ => false) [] ["N1"] true none
      ⟨[mdlA]⟩).state.registry.count "N1" = 0 ∧
    Action.register "a.onnx" "N1" ∉
      (loadMain (fun _ => false) (fun _ => false) [] ["N1"] true none
        ⟨[mdlA]⟩).state.trace := by
  refine ⟨?_, ?_, ?_⟩ <;> decide

/-- C1 (amended): a registry failure while processing one descriptor of a
register batch aborts the entire batch: the run ends `aborted` in the
state reached at the failure, unchanged by whatever descriptors were
still pending, and no summary counts are reported. -/
theorem register_failure_aborts_batch (df lf : String → Bool)
    (files reg : List String) (force : Bool)
    (ms1 ms2 : List ModelDescriptor) (m : ModelDescriptor) (st1 st2 : ExecState)
    (h1 : runBatch df lf files reg force ms1 (initState reg) = Except.ok st1)
    (h2 : processModel df lf files reg force m st1 = Except.error st2) :
    loadMain df lf files reg force none ⟨ms1 ++ m :: ms2⟩ =
      LoadOutcome.aborted st2 := by
  have hrb := runBatch_ok_then_error df lf files reg force m ms2 st2 ms1
    (initState reg) st1 h1 h2
  simp [loadMain, hrb]

/-- Witness for C1 (amended): with three targets and the register call
failing on the second, the whole batch aborts right there. -/
theorem register_failure_aborts_batch_w :
    runBatch (fun _ => false) (fun n => n == "N2") ["a.onnx", "b.onnx", "c.onnx"] []
        false [mdlA] (initState []) =
      Except.ok ⟨["N1"], [Action.register "a.onnx" "N1"], 1, 0⟩ ∧
    loadMain (fun _ => false) (fun n => n == "N2") ["a.onnx", "b.onnx", "c.onnx"] []
        false none ⟨[mdlA, mdlB, mdlC]⟩ =
      LoadOutcome.aborted ⟨["N1"], [Action.register "a.onnx" "N1"], 1, 0⟩ :=
  ⟨rfl,
   register_failure_aborts_batch (fun _ => false) (fun n => n == "N2")
     ["a.onnx", "b.onnx", "c.onnx"] [] false [mdlA] [mdlC] mdlB
     ⟨["N1"], [Action.register "a.onnx" "N1"], 1, 0⟩
     ⟨["N1"], [Action.register "a.onnx" "N1"], 1, 0⟩ rfl rfl⟩

/-- C1 counterexample: a batch of three register targets where the second
fails at the registry call ends as a total abort: the trace stops at the
first target's register action, nothing at all is attempted for the third
target, and no succeeded/failed summary is produced. -/
theorem register_failure_total_abort_cx :
    loadMain (fun _ => false) (fun n => n == "N2") ["a.onnx", "b.onnx", "c.onnx"] []
        false none ⟨[mdlA, mdlB, mdlC]⟩ =
      LoadOutcome.aborted ⟨["N1"], [Action.register "a.onnx" "N1"], 1, 0⟩ ∧
    Action.register "c.onnx" "N3" ∉
      (loadMain (fun _ => false) (fun n => n == "N2")
        ["a.onnx", "b.onnx", "c.onnx"] [] false none ⟨[mdlA, mdlB, mdlC]⟩).state.trace ∧
    Action.skipMissing "c" ∉
      (loadMain (fun _ => false) (fun n => n == "N2")
        ["a.onnx", "b.onnx", "c.onnx"] [] false none ⟨[mdlA, mdlB, mdlC]⟩).state.trace ∧
    Action.skipAlready "c" ∉
      (loadMain (fun _ => false) (fun n => n == "N2")
        ["a.onnx", "b.onnx", "c.onnx"] [] false none ⟨[mdlA, mdlB, mdlC]⟩).state.trace := by
  refine ⟨?_, ?_, ?_, ?_⟩ <;> decide

/-- C4: a register-batch descriptor that is not in the registry snapshot
and whose local artifact file is absent is skipped with the
artifact-missing message (the printed advice is to fetch first); no
registry mutation happens for it, and no load-direction run ever emits a
fetch action. -/
theorem artifact_missing_skip_no_fetch (df lf : String → Bool)
    (files snap : List String) (force : Bool) (m : ModelDescriptor) (st : ExecState)
    (h1 : m.db_model_name ∉ snap) (h2 : m.output ∉ files) :
    processModel df lf files snap force m st =
      Except.ok { st with trace := st.trace ++ [Action.skipMissing m.id],
                          skippedCount := st.skippedCount + 1 } ∧
    ∀ (registry : List String) (targetId : Option String) (config : Config)
      (u : String),
      Action.fetch u ∉
        (loadMain df lf files registry force targetId config).state.trace := by
  constructor
  · simp [processModel, loadAndCount, load_model, h1, h2]
  · intro registry targetId config u
    exact loadMain_no_fetch df lf files registry force targetId config u

/-- Witness for C4 at a concrete unregistered target with no local file. -/
theorem artifact_missing_skip_no_fetch_w :
    mdlB.db_model_name ∉ ([] : List String) ∧ mdlB.output ∉ ([] : List String) ∧
    processModel (fun _ => false) (fun _ => false) [] [] false mdlB (initState []) =
      Except.ok ⟨[], [Action.skipMissing "b"], 0, 1⟩ ∧
    Action.fetch "http://x/b.onnx" ∉
      (loadMain (fun _ => false) (fun _ => false) [] [] false none
        ⟨[mdlB]⟩).state.trace := by
  have h := artifact_missing_skip_no_fetch (fun _ => false) (fun _ => false) [] []
    false mdlB (initState []) (by decide) (by decide)
  exact ⟨by decide, by decide, h.1, h.2 [] none ⟨[mdlB]⟩ "http://x/b.onnx"⟩

/-- C5 counterexample: a manifest with a duplicate id and a duplicate
registry name is loaded successfully by `load_config`, which performs no
uniqueness validation, so the claim that such a manifest fails with
`ConfigError` is false. -/
theorem load_config_duplicates_accepted_cx :
    load_config (some cfgDup) = Except.ok cfgDup ∧
    ¬ (cfgDup.models.map (fun m => m.id)).Nodup ∧
    ¬ (cfgDup.models.map (fun m => m.db_model_name)).Nodup :=
  ⟨rfl, by decide, by decide⟩

/-- C5 (amended): manifest load succeeds for every parseable manifest
document, duplicates included — no uniqueness check is performed — and
fails only when the file is missing or the JSON malformed, which happens
before any database I/O (the connection is opened after `load_config`). -/
theorem load_config_no_uniqueness_check :
    (∀ c : Config, load_config (some c) = Except.ok c) ∧
    load_config none = Except.error ConfigError.missingOrMalformed :=
  ⟨fun _ => rfl, rfl⟩

/-- C6: an invocation explicitly naming a target id with no manifest
match fails fatally with the list of valid ids before any side effect:
the register tool exits via `notFound` with the initial state untouched,
and the deregister tool does the same for a batch containing the unknown
id anywhere, with an empty trace and zero mutations. -/
theorem unknown_id_fatal_no_mutation (config : Config) (reg files : List String)
    (df lf : String → Bool) (force : Bool) (tid : String)
    (ids1 ids2 : List String) (yes answer : Bool)
    (h : tid ∉ config.models.map (fun m => m.id)) :
    loadMain df lf files reg force (some tid) config =
      LoadOutcome.notFound (config.models.map (fun m => m.id)) (initState reg) ∧
    dropMain config reg false false (ids1 ++ tid :: ids2) yes answer =
      DropOutcome.notFound (config.models.map (fun m => m.id)) ⟨reg, [], 0⟩ := by
  constructor
  · have hfil : config.models.filter (fun m => m.id == tid) = [] := by
      rw [List.filter_eq_nil_iff]
      intro m hm
      simp only [beq_iff_eq]
      intro he
      exact h (List.mem_map.mpr ⟨m, hm, he⟩)
    simp [loadMain, hfil]
  · have hres := resolveExplicit_unknown config reg tid h (ids1 ++ tid :: ids2)
      (by simp)
    have hne : ids1 ++ tid :: ids2 ≠ [] := by
      intro hx
      cases ids1 <;> simp at hx
    simp [dropMain, hres, hne]

/-- Witness for C6 at a concrete unknown id. -/
theorem unknown_id_fatal_no_mutation_w :
    "zzz" ∉ (⟨[mdlA]⟩ : Config).models.map (fun m => m.id) ∧
    loadMain (fun _ => false) (fun _ => false) [] ["N1"] false (some "zzz")
        ⟨[mdlA]⟩ =
      LoadOutcome.notFound ["a"] (initState ["N1"]) ∧
    dropMain ⟨[mdlA]⟩ ["N1"] false false ["zzz"] false false =
      DropOutcome.notFound ["a"] ⟨["N1"], [], 0⟩ := by
  have h := unknown_id_fatal_no_mutation ⟨[mdlA]⟩ ["N1"] [] (fun _ => false)
    (fun _ => false) false "zzz" [] [] false false (by decide)
  exact ⟨by decide, h.1, h.2⟩

/-- C8: the `--all` deregister plan covers every name in the registry
snapshot, in snapshot order; each planned item carries a matching
manifest descriptor's id when one exists and a null id for orphans. -/
theorem drop_all_plan_partition (config : Config) (loaded : List String) :
    (resolveAll config loaded).map Prod.fst = loaded ∧
    ∀ p ∈ resolveAll config loaded,
      (∃ d ∈ config.models, d.db_model_name = p.1 ∧ p.2 = some d.id) ∨
      ((∀ d ∈ config.models, d.db_model_name ≠ p.1) ∧ p.2 = none) := by
  constructor
  · rw [resolveAll, List.map_map]
    exact List.map_id loaded
  · intro p hp
    rw [resolveAll, List.mem_map] at hp
    rcases hp with ⟨n, hn, rfl⟩
    cases hg : get_model_by_db_name config n with
    | some d =>
      left
      have hg' : config.models.find? (fun m => m.db_model_name == n) = some d := hg
      refine ⟨d, List.mem_of_find?_eq_some hg', ?_, ?_⟩
      · have := List.find?_some hg'
        simpa [beq_iff_eq] using this
      · rfl
    | none =>
      right
      have hg' : config.models.find? (fun m => m.db_model_name == n) = none := hg
      constructor
      · intro d hd he
        have := List.find?_eq_none.mp hg' d hd
        rw [beq_iff_eq] at this
        exact this he
      · rfl

/-- Witness for C8 on a registry with one known and one orphan name. -/
theorem drop_all_plan_partition_w :
    (resolveAll ⟨[mdlA]⟩ ["N1", "ORPHAN"]).map Prod.fst = ["N1", "ORPHAN"] ∧
    ((∃ d ∈ (⟨[mdlA]⟩ : Config).models,
        d.db_model_name = "ORPHAN" ∧ (none : Option String) = some d.id) ∨
      ((∀ d ∈ (⟨[mdlA]⟩ : Config).models, d.db_model_name ≠ "ORPHAN") ∧
        (none : Option String) = none)) :=
  ⟨(drop_all_plan_partition ⟨[mdlA]⟩ ["N1", "ORPHAN"]).1,
   (drop_all_plan_partition ⟨[mdlA]⟩ ["N1", "ORPHAN"]).2 ("ORPHAN", none)
     (by decide)⟩

/-- C9 (amended): duplicate requested ids are not deduplicated before
planning: every occurrence of the same id is planned, deregistered and
counted separately in the final summary. -/
theorem duplicate_ids_each_occurrence_dropped (config : Config) (reg : List String)
    (i : String) (m : ModelDescriptor) (k : Nat)
    (h1 : get_model_by_id config i = some m) (h2 : m.db_model_name ∈ reg) :
    resolveExplicit config reg (List.replicate (k + 1) i) =
      Except.ok (List.replicate (k + 1) (m.db_model_name, some i)) ∧
    dropMain config reg false false (List.replicate (k + 1) i) true true =
      DropOutcome.done
        (execDrops (List.replicate (k + 1) (m.db_model_name, some i))
          ⟨reg, [], 0⟩) ∧
    (execDrops (List.replicate (k + 1) (m.db_model_name, some i))
        ⟨reg, [], 0⟩).droppedCount = k + 1 ∧
    (execDrops (List.replicate (k + 1) (m.db_model_name, some i))
        ⟨reg, [], 0⟩).trace =
      List.replicate (k + 1) (Action.deregister m.db_model_name) := by
  have hres := resolveExplicit_replicate config reg i m h1 h2 k
  have hne : List.replicate (k + 1) i ≠ [] := by simp
  have hpne : List.replicate (k + 1) (m.db_model_name, some i) ≠
      ([] : List (String × Option String)) := by simp
  refine ⟨hres, ?_, ?_, ?_⟩
  · simp [dropMain, hres, hne, hpne]
  · rw [execDrops_droppedCount]
    simp
  · rw [execDrops_trace]
    simp

/-- Witness for C9 (amended) with the same id requested twice. -/
theorem duplicate_ids_each_occurrence_dropped_w :
    get_model_by_id ⟨[mdlA]⟩ "a" = some mdlA ∧ mdlA.db_model_name ∈ ["N1"] ∧
    dropMain ⟨[mdlA]⟩ ["N1"] false false ["a", "a"] true true =
      DropOutcome.done
        (execDrops [("N1", some "a"), ("N1", some "a")] ⟨["N1"], [], 0⟩) ∧
    (execDrops [("N1", some "a"), ("N1", some "a")]
        ⟨["N1"], [], 0⟩).droppedCount = 2 := by
  have h := duplicate_ids_each_occurrence_dropped ⟨[mdlA]⟩ ["N1"] "a" mdlA 1 rfl
    (by decide)
  exact ⟨rfl, by decide, h.2.1, h.2.2.1⟩

/-- C9 counterexample: requesting the same id twice in one invocation
deregisters it twice and reports 2 in the summary count, so duplicates
are not deduplicated and the target is not acted on at most once. -/
theorem duplicate_ids_double_count_cx :
    dropMain ⟨[mdlA]⟩ ["N1"] false false ["a", "a"] true true =
      DropOutcome.done ⟨[], [Action.deregister "N1", Action.deregister "N1"], 2⟩ ∧
    ¬ (execDrops [("N1", some "a"), ("N1", some "a")]
        ⟨["N1"], [], 0⟩).droppedCount ≤ 1 :=
  ⟨by decide, by decide⟩

/-- C7 (amended): a failed direct download leaves a partial file at the
final artifact path (`urlretrieve` writes to the destination directly,
with no temp-and-rename); when the source is an archive, an extraction
failure leaves the temporary archive on disk — it is deleted only on the
success path, where it is always removed. -/
theorem fetch_failure_file_behavior (extractOk : String → Bool)
    (zipEntries : List String) (m : ModelDescriptor) (fs fs2 : FS)
    (hnx : fs.existsPath m.output = false) :
    (strEndsWith m.url ".zip" = false →
      download_model false extractOk zipEntries m fs =
        Except.error (fs.put m.output false) ∧
      (fs.put m.output false).existsPath m.output = true) ∧
    (strEndsWith m.url ".zip" = true →
      (extractEntries extractOk zipEntries (fs.put (tempZipPath m) true) =
          Except.error fs2 →
        download_model true extractOk zipEntries m fs = Except.error fs2 ∧
        fs2.existsPath (tempZipPath m) = true) ∧
      (extractEntries extractOk zipEntries (fs.put (tempZipPath m) true) =
          Except.ok fs2 →
        download_model true extractOk zipEntries m fs =
          Except.ok (fs2.removePath (tempZipPath m)) ∧
        (fs2.removePath (tempZipPath m)).existsPath (tempZipPath m) = false)) := by
  refine ⟨fun hz => ⟨?_, ?_⟩, fun hz => ⟨fun hex => ⟨?_, ?_⟩, fun hex => ⟨?_, ?_⟩⟩⟩
  · simp [download_model, hnx, hz]
  · rw [FS.existsPath_put, hnx]
    simp
  · simp [download_model, hnx, hz, hex]
  · exact extractEntries_mono extractOk zipEntries (fs.put (tempZipPath m) true)
      fs2 (tempZipPath m) (Or.inr hex) (by rw [FS.existsPath_put]; simp)
  · simp [download_model, hnx, hz, hex]
  · exact FS.existsPath_removePath_self fs2 (tempZipPath m)

/-- Witness for C7 (amended) at a concrete direct-download descriptor. -/
theorem fetch_failure_file_behavior_w :
    (FS.mk []).existsPath mdlA.output = false ∧
    strEndsWith mdlA.url ".zip" = false ∧
    download_model false (fun _ => true) [] mdlA ⟨[]⟩ =
      Except.error ((FS.mk []).put mdlA.output false) ∧
    ((FS.mk []).put mdlA.output false).existsPath mdlA.output = true := by
  have h := (fetch_failure_file_behavior (fun _ => true) [] mdlA ⟨[]⟩ ⟨[]⟩
    (by decide)).1 (by decide)
  exact ⟨by decide, by decide, h.1, h.2⟩

/-- C7 counterexample: the failed direct download of `mdlA` leaves a
partial file at the final artifact path `a.onnx`, and the failed
extraction for `mdlZip` leaves the temporary archive `z_temp.zip` on
disk, so neither "no partial file at the final path" nor "the temporary
archive is deleted on the failure path" holds. -/
theorem fetch_partial_and_leftover_cx :
    download_model false (fun _ => true) [] mdlA ⟨[]⟩ =
      Except.error ⟨[("a.onnx", false)]⟩ ∧
    (FS.mk [("a.onnx", false)]).existsPath "a.onnx" = true ∧
    download_model true (fun _ => false) ["z.onnx"] mdlZip ⟨[]⟩ =
      Except.error ⟨[("z_temp.zip", true), ("z.onnx", false)]⟩ ∧
    (FS.mk [("z_temp.zip", true), ("z.onnx", false)]).existsPath
      (tempZipPath mdlZip) = true :=
  ⟨rfl, by decide, rfl, by decide⟩

end OracleVec
